import Mathlib

/-!
Shallow embedding of `examples/openclaw_genai_integration.py`:
the `PurdueGenAIProvider` class (chat_completion, list_models) and the
`OpenClawAgent` class (process, reset_conversation).

Modelling conventions:
* JSON values are the inductive `Json`; `requests.Response.json()` is modelled
  by the `jsonBody` field of an HTTP outcome (`Except String Json`, the error
  carrying the decode-failure message).
* The network (`requests.post` / `requests.get`) is passed in as a function
  `net : HttpRequest → HttpOutcome`, so theorems quantify over every remote
  behaviour.  A `failure` outcome models a raised `requests` exception
  (timeout, connection refused); a `response` outcome models a completed
  HTTP exchange.
* Python exceptions become the `PyError` inductive; `PyError.toMessage`
  is Python's `str(e)`.
* Methods that in Python could mutate `self` are state-passing: they return
  the (possibly updated) object alongside the result.
-/

/-- JSON values, as produced by `response.json()`. -/
inductive Json where
  | null
  | bool (b : Bool)
  | num (q : ℚ)
  | str (s : String)
  | arr (elems : List Json)
  | obj (fields : List (String × Json))

/-- Python exceptions that can arise in the embedded code.  The argument of
each constructor is what `str(e)` renders for that exception. -/
inductive PyError where
  | apiError (msg : String)
  | transportError (msg : String)
  | jsonDecodeError (msg : String)
  | keyError (rendered : String)
  | indexError (msg : String)
  | typeError (msg : String)
deriving DecidableEq

/-- Python's `str(e)` on a caught exception. -/
def PyError.toMessage : PyError → String
  | .apiError m => m
  | .transportError m => m
  | .jsonDecodeError m => m
  | .keyError r => r
  | .indexError m => m
  | .typeError m => m

/-- Dict lookup on the field list of a JSON object (`d[k]`): first matching
key, `KeyError` (whose `str` is the quoted key) when absent. -/
def lookupField : List (String × Json) → String → Except PyError Json
  | [], k => .error (.keyError ("'" ++ k ++ "'"))
  | (k', v) :: rest, k => if k' = k then .ok v else lookupField rest k

/-- Python subscript `j[k]` with a string key. -/
def Json.getField : Json → String → Except PyError Json
  | .obj fields, k => lookupField fields k
  | .str _, _ => .error (.typeError "string indices must be integers")
  | .arr _, _ => .error (.typeError "list indices must be integers or slices, not str")
  | _, _ => .error (.typeError "object is not subscriptable")

/-- Python subscript `j[i]` with a natural-number index. -/
def Json.getIndex : Json → Nat → Except PyError Json
  | .arr xs, i =>
      match xs.get? i with
      | some v => .ok v
      | none => .error (.indexError "list index out of range")
  | .str s, i =>
      match s.data.get? i with
      | some c => .ok (.str (String.mk [c]))
      | none => .error (.indexError "string index out of range")
  | .obj _, i => .error (.keyError (toString i))
  | _, _ => .error (.typeError "object is not subscriptable")

/-- Whether a Python value is a `str`. -/
def Json.isStr : Json → Bool
  | .str _ => true
  | _ => false

/-- One outbound HTTP request as issued by `requests.post` / `requests.get`
(`body = some payload` models the `json=payload` keyword of a POST). -/
structure HttpRequest where
  url : String
  headers : List (String × String)
  body : Option Json
  timeout : Nat

/-- What the network call comes back with: either a completed response
(status code, raw body text, and the result of `.json()` on it), or a
raised `requests` exception carrying its message. -/
inductive HttpOutcome where
  | response (status_code : Nat) (text : String) (jsonBody : Except String Json)
  | failure (msg : String)

/-- A conversation message, a Python dict `{"role": ..., "content": ...}`.
The content is an arbitrary JSON value: user and system contents are
strings, but an assistant content is whatever the remote payload held. -/
structure Message where
  role : String
  content : Json

/-- The `PurdueGenAIProvider` object after `__init__`. -/
structure PurdueGenAIProvider where
  api_key : String
  base_url : String
  model : String
  headers : List (String × String)

/-- `PurdueGenAIProvider.__init__(api_key, base_url=None, model=None)`.
`base_url or "..."` and `model or "..."` substitute the default whenever the
argument is falsy (absent or the empty string).  The `api_key` is stored
unchecked. -/
def PurdueGenAIProvider.init (api_key : String) (base_url : Option String)
    (model : Option String) : PurdueGenAIProvider :=
  { api_key := api_key
    base_url :=
      match base_url with
      | some s => if s = "" then "https://genai.rcac.purdue.edu/api/v1" else s
      | none => "https://genai.rcac.purdue.edu/api/v1"
    model :=
      match model with
      | some s => if s = "" then "llama3.2:latest" else s
      | none => "llama3.2:latest"
    headers := [("Authorization", "Bearer " ++ api_key),
                ("Content-Type", "application/json")] }

/-- The request body built by `chat_completion`. -/
def chatPayload (p : PurdueGenAIProvider) (messages : List Message)
    (max_tokens : Nat) (temperature : ℚ) : Json :=
  Json.obj
    [("model", Json.str p.model),
     ("messages", Json.arr (messages.map
        (fun m => Json.obj [("role", Json.str m.role), ("content", m.content)]))),
     ("max_tokens", Json.num max_tokens),
     ("temperature", Json.num temperature)]

/-- `PurdueGenAIProvider.chat_completion`: POST the payload to
`{base_url}/chat/completions` with timeout 30; on status 200 return the
parsed JSON body whole (`return response.json()`); otherwise raise
`Exception(f"API Error: \x7bstatus\x7d - \x7btext\x7d")`.  A raised
`requests` exception propagates (here: a `transportError` result). -/
def PurdueGenAIProvider.chat_completion (p : PurdueGenAIProvider)
    (messages : List Message) (max_tokens : Nat) (temperature : ℚ)
    (net : HttpRequest → HttpOutcome) :
    Except PyError Json × PurdueGenAIProvider :=
  match net { url := p.base_url ++ "/chat/completions"
              headers := p.headers
              body := some (chatPayload p messages max_tokens temperature)
              timeout := 30 } with
  | .failure msg => (.error (.transportError msg), p)
  | .response status_code text jsonBody =>
      if status_code = 200 then
        match jsonBody with
        | .ok j => (.ok j, p)
        | .error m => (.error (.jsonDecodeError m), p)
      else
        (.error (.apiError ("API Error: " ++ toString status_code ++ " - " ++ text)), p)

/-- Python iteration `for model in models` over a JSON value: a list yields
its elements, a dict its keys, a string its characters. -/
def pyIter : Json → Except PyError (List Json)
  | .arr xs => .ok xs
  | .obj fields => .ok (fields.map (fun kv => Json.str kv.1))
  | .str s => .ok (s.data.map (fun c => Json.str (String.mk [c])))
  | _ => .error (.typeError "object is not iterable")

/-- The list comprehension `[model["id"] for model in models]`: collect each
entry's `"id"` field left to right, the first failure raising. -/
def collectIds : List Json → Except PyError (List Json)
  | [] => .ok []
  | e :: rest =>
      match e.getField "id" with
      | .error err => .error err
      | .ok i =>
          match collectIds rest with
          | .error err => .error err
          | .ok rest' => .ok (i :: rest')

/-- `PurdueGenAIProvider.list_models`: GET `{base_url}/models` with timeout
10; on status 200 return `[model["id"] for model in response.json()["data"]]`;
otherwise raise `Exception(f"API Error: \x7bstatus\x7d")` (note: the message
carries the status only, not the body text). -/
def PurdueGenAIProvider.list_models (p : PurdueGenAIProvider)
    (net : HttpRequest → HttpOutcome) :
    Except PyError (List Json) × PurdueGenAIProvider :=
  match net { url := p.base_url ++ "/models"
              headers := p.headers
              body := none
              timeout := 10 } with
  | .failure msg => (.error (.transportError msg), p)
  | .response status_code _text jsonBody =>
      if status_code = 200 then
        match jsonBody with
        | .error m => (.error (.jsonDecodeError m), p)
        | .ok j =>
            match j.getField "data" with
            | .error e => (.error e, p)
            | .ok d =>
                match pyIter d with
                | .error e => (.error e, p)
                | .ok entries =>
                    match collectIds entries with
                    | .error e => (.error e, p)
                    | .ok ids => (.ok ids, p)
      else
        (.error (.apiError ("API Error: " ++ toString status_code)), p)

/-- The agent's extraction `result["choices"][0]["message"]["content"]`. -/
def extractAssistantContent (result : Json) : Except PyError Json :=
  match result.getField "choices" with
  | .error e => .error e
  | .ok choices =>
      match choices.getIndex 0 with
      | .error e => .error e
      | .ok choice0 =>
          match choice0.getField "message" with
          | .error e => .error e
          | .ok message => message.getField "content"

/-- The `OpenClawAgent` object. -/
structure OpenClawAgent where
  name : String
  genai_provider : PurdueGenAIProvider
  system_prompt : String
  conversation_history : List Message

/-- `OpenClawAgent.__init__(name, genai_provider, system_prompt=None)`:
stores `system_prompt or "You are a helpful AI assistant."`; the history
starts empty and gets a system message only when the *argument* is truthy. -/
def OpenClawAgent.init (name : String) (genai_provider : PurdueGenAIProvider)
    (system_prompt : Option String) : OpenClawAgent :=
  { name := name
    genai_provider := genai_provider
    system_prompt :=
      match system_prompt with
      | some s => if s = "" then "You are a helpful AI assistant." else s
      | none => "You are a helpful AI assistant."
    conversation_history :=
      match system_prompt with
      | some s => if s = "" then [] else [{ role := "system", content := Json.str s }]
      | none => [] }

/-- The agent after `self.conversation_history.append({"role": "user",
"content": user_input})`. -/
def withUserMessage (a : OpenClawAgent) (user_input : String) : OpenClawAgent :=
  { a with conversation_history :=
      a.conversation_history ++ [{ role := "user", content := Json.str user_input }] }

/-- The body of `process`'s `try` block up to (and including) the extraction:
call the provider over the full current history, then extract
`result["choices"][0]["message"]["content"]`. -/
def tryCompletion (a1 : OpenClawAgent) (max_tokens : Nat) (temperature : ℚ)
    (net : HttpRequest → HttpOutcome) : Except PyError Json :=
  match (a1.genai_provider.chat_completion a1.conversation_history
           max_tokens temperature net).1 with
  | .error e => .error e
  | .ok result => extractAssistantContent result

/-- `OpenClawAgent.process`: append the user message, run the completion and
extraction; on success append the assistant message and return its content;
on any caught exception return the string `f"Error: \x7bstr(e)\x7d"`. -/
def OpenClawAgent.process (a : OpenClawAgent) (user_input : String)
    (max_tokens : Nat) (temperature : ℚ) (net : HttpRequest → HttpOutcome) :
    Json × OpenClawAgent :=
  let a1 := withUserMessage a user_input
  match tryCompletion a1 max_tokens temperature net with
  | .ok assistant_message =>
      (assistant_message,
       { a1 with conversation_history :=
           a1.conversation_history ++
             [{ role := "assistant", content := assistant_message }] })
  | .error e => (Json.str ("Error: " ++ e.toMessage), a1)

/-- `OpenClawAgent.reset_conversation`: empty the history, then re-seed the
system message when `self.system_prompt` is truthy. -/
def OpenClawAgent.reset_conversation (a : OpenClawAgent) : OpenClawAgent :=
  if a.system_prompt = "" then { a with conversation_history := [] }
  else { a with conversation_history :=
          [{ role := "system", content := Json.str a.system_prompt }] }

/-- First message of a history whose role is not `"system"`. -/
def firstNonSystem (h : List Message) : Option Message :=
  h.find? (fun m => m.role != "system")

/-! Concrete fixtures: the provider, bodies and stub networks of the spec's
test scenarios. -/

/-- Provider of the spec scenario: base `https://api.example/v1`, model `m1`. -/
def exampleProvider : PurdueGenAIProvider :=
  PurdueGenAIProvider.init "k" (some "https://api.example/v1") (some "m1")

/-- The one-message conversation `[{role: user, content: "hi"}]`. -/
def exampleMessages : List Message :=
  [{ role := "user", content := Json.str "hi" }]

/-- Parsed stub body `{"choices":[{"message":{"content":"hello"}}]}`. -/
def helloBody : Json :=
  Json.obj [("choices", Json.arr
    [Json.obj [("message", Json.obj [("content", Json.str "hello")])]])]

/-- Stub network answering every request with HTTP 200 and `helloBody`. -/
def helloNet : HttpRequest → HttpOutcome := fun _ =>
  HttpOutcome.response 200
    "\x7b\"choices\":[\x7b\"message\":\x7b\"content\":\"hello\"\x7d\x7d]\x7d"
    (Except.ok helloBody)

/-- Stub network answering HTTP 200 with the JSON body `{}`. -/
def emptyObjNet : HttpRequest → HttpOutcome := fun _ =>
  HttpOutcome.response 200 "\x7b\x7d" (Except.ok (Json.obj []))

/-- Stub network answering HTTP 500 with body text `server error`. -/
def net500 : HttpRequest → HttpOutcome := fun _ =>
  HttpOutcome.response 500 "server error" (Except.error "no json")

/-- Stub network whose call raises a `requests` exception. -/
def failNet : HttpRequest → HttpOutcome := fun _ =>
  HttpOutcome.failure "Connection refused"

/-- Parsed stub body `{"data":[{"id":"m1"},{"id":"m2"}]}`. -/
def modelsBody : Json :=
  Json.obj [("data", Json.arr
    [Json.obj [("id", Json.str "m1")], Json.obj [("id", Json.str "m2")]])]

/-- Stub network answering HTTP 200 with `modelsBody`. -/
def modelsNet : HttpRequest → HttpOutcome := fun _ =>
  HttpOutcome.response 200
    "\x7b\"data\":[\x7b\"id\":\"m1\"\x7d,\x7b\"id\":\"m2\"\x7d]\x7d"
    (Except.ok modelsBody)

/-- Parsed body whose first choice's content is the number 3, not a string. -/
def numBody : Json :=
  Json.obj [("choices", Json.arr
    [Json.obj [("message", Json.obj [("content", Json.num 3)])]])]

/-- Stub network answering HTTP 200 with `numBody`. -/
def numNet : HttpRequest → HttpOutcome := fun _ =>
  HttpOutcome.response 200
    "\x7b\"choices\":[\x7b\"message\":\x7b\"content\":3\x7d\x7d]\x7d"
    (Except.ok numBody)

/-- Demo agent: system prompt `"S"`, over `exampleProvider`. -/
def demoAgent : OpenClawAgent :=
  OpenClawAgent.init "A" exampleProvider (some "S")

/-! Helper lemmas shared by several claim theorems. -/

/-- `process` on a successful completion-and-extraction: appends the user and
assistant messages and returns the extracted content. -/
theorem process_ok (a : OpenClawAgent) (u : String) (mt : Nat) (t : ℚ)
    (net : HttpRequest → HttpOutcome) (c : Json)
    (h : tryCompletion (withUserMessage a u) mt t net = Except.ok c) :
    a.process u mt t net
      = (c, { a with conversation_history :=
            a.conversation_history
              ++ [{ role := "user", content := Json.str u },
                  { role := "assistant", content := c }] }) := by
  simp only [OpenClawAgent.process]
  rw [h]
  simp [withUserMessage]

/-- `process` on a failed completion or extraction: appends only the user
message and returns the error string. -/
theorem process_err (a : OpenClawAgent) (u : String) (mt : Nat) (t : ℚ)
    (net : HttpRequest → HttpOutcome) (e : PyError)
    (h : tryCompletion (withUserMessage a u) mt t net = Except.error e) :
    a.process u mt t net
      = (Json.str ("Error: " ++ e.toMessage), withUserMessage a u) := by
  simp only [OpenClawAgent.process]
  rw [h]

/-- An error of the provider call surfaces unchanged from the `try` block. -/
theorem tryCompletion_chat_error (a : OpenClawAgent) (u : String) (mt : Nat)
    (t : ℚ) (net : HttpRequest → HttpOutcome) (e : PyError)
    (h : (a.genai_provider.chat_completion
        (a.conversation_history ++ [{ role := "user", content := Json.str u }])
        mt t net).1 = Except.error e) :
    tryCompletion (withUserMessage a u) mt t net = Except.error e := by
  unfold tryCompletion
  dsimp only [withUserMessage]
  rw [h]

/-- `collectIds` over entries of the shape `{"id": i}` recovers the ids. -/
theorem collectIds_id_map (ids : List Json) :
    collectIds (ids.map (fun i => Json.obj [("id", i)])) = Except.ok ids := by
  induction ids with
  | nil => rfl
  | cons i rest ih =>
      have h1 : (Json.obj [("id", i)]).getField "id" = Except.ok i := rfl
      simp [collectIds, h1, ih]

/-- C1 counterexample: against the stub returning HTTP 200 with body
`{"choices":[{"message":{"content":"hello"}}]}`, `chat_completion` returns
the whole parsed payload, not the string `"hello"`. -/
theorem C1_counterexample :
    (exampleProvider.chat_completion exampleMessages 10 (1/2) helloNet).1
        = Except.ok helloBody
    ∧ (exampleProvider.chat_completion exampleMessages 10 (1/2) helloNet).1
        ≠ Except.ok (Json.str "hello") := by
  refine ⟨rfl, fun h => ?_⟩
  exact Json.noConfusion (Except.ok.inj h)

/-- C1 (amended): on HTTP 200 `chat_completion` returns the parsed JSON body
whole (`return response.json()`); the first choice's message content is
extracted only later, by the agent, and on the hello stub that extraction
yields `"hello"`. -/
theorem C1_chat_returns_whole_payload :
    (∀ (p : PurdueGenAIProvider) (msgs : List Message) (mt : Nat) (t : ℚ)
       (text : String) (j : Json),
       (p.chat_completion msgs mt t
          (fun _ => HttpOutcome.response 200 text (Except.ok j))).1
         = Except.ok j)
    ∧ (exampleProvider.chat_completion exampleMessages 10 (1/2) helloNet).1
        = Except.ok helloBody
    ∧ extractAssistantContent helloBody = Except.ok (Json.str "hello") :=
  ⟨fun _ _ _ _ _ _ => rfl, rfl, rfl⟩

/-- C2 counterexample: a 200 response whose JSON body `{}` lacks the expected
structure does not make `chat_completion` fail — it returns the body. -/
theorem C2_counterexample :
    (exampleProvider.chat_completion exampleMessages 10 (1/2) emptyObjNet).1
      = Except.ok (Json.obj []) := rfl

/-- C2 (amended): when the status is not 200, `chat_completion` fails with a
generic error whose message embeds the status and raw body text; a transport
failure surfaces as a distinct error kind; but a 200 response whose body
parses as JSON never fails inside `chat_completion`, whatever its structure. -/
theorem C2_error_kinds :
    ∀ (p : PurdueGenAIProvider) (msgs : List Message) (mt : Nat) (t : ℚ)
      (status : Nat) (text : String) (jb : Except String Json) (m : String),
      (status ≠ 200 →
        (p.chat_completion msgs mt t
            (fun _ => HttpOutcome.response status text jb)).1
          = Except.error (PyError.apiError
              ("API Error: " ++ toString status ++ " - " ++ text)))
      ∧ (p.chat_completion msgs mt t (fun _ => HttpOutcome.failure m)).1
          = Except.error (PyError.transportError m)
      ∧ (∀ j, jb = Except.ok j →
          (p.chat_completion msgs mt t
              (fun _ => HttpOutcome.response 200 text jb)).1 = Except.ok j)
      ∧ PyError.transportError m
          ≠ PyError.apiError ("API Error: " ++ toString status ++ " - " ++ text) := by
  intro p msgs mt t status text jb m
  refine ⟨?_, rfl, ?_, by simp⟩
  · intro hs
    simp [PurdueGenAIProvider.chat_completion, hs]
  · rintro j rfl
    rfl

/-- Witness for C2: at status 500 with body `server error` the error message
is `API Error: 500 - server error`; on the hello stub the call succeeds. -/
theorem C2_error_kinds_witness :
    (exampleProvider.chat_completion exampleMessages 10 (1/2) net500).1
      = Except.error (PyError.apiError
          ("API Error: " ++ toString (500 : Nat) ++ " - " ++ "server error"))
    ∧ (exampleProvider.chat_completion exampleMessages 10 (1/2) helloNet).1
        = Except.ok helloBody :=
  ⟨(C2_error_kinds exampleProvider exampleMessages 10 (1/2) 500 "server error"
      (Except.error "no json") "boom").1 (by decide),
   (C2_error_kinds exampleProvider exampleMessages 10 (1/2) 500
      "\x7b\"choices\":[\x7b\"message\":\x7b\"content\":\"hello\"\x7d\x7d]\x7d"
      (Except.ok helloBody) "boom").2.2.1 helloBody rfl⟩

/-- C5 counterexample: constructing with an empty (absent) credential
succeeds and yields a fully formed provider instance. -/
theorem C5_counterexample :
    (PurdueGenAIProvider.init "" none none).api_key = ""
    ∧ (PurdueGenAIProvider.init "" none none).base_url
        = "https://genai.rcac.purdue.edu/api/v1"
    ∧ (PurdueGenAIProvider.init "" none none).model = "llama3.2:latest"
    ∧ (PurdueGenAIProvider.init "" none none).headers
        = [("Authorization", "Bearer "), ("Content-Type", "application/json")] :=
  ⟨rfl, rfl, rfl, by decide⟩

/-- C5 (amended): the constructor performs no credential validation — with an
empty API key it still creates an instance, whose Authorization header is
`Bearer ` followed by the empty credential.  (The demo's `main` checks the
environment variable before constructing; the constructor itself does not.) -/
theorem C5_no_construction_validation :
    ∀ (base mdl : Option String),
      (PurdueGenAIProvider.init "" base mdl).api_key = ""
      ∧ (PurdueGenAIProvider.init "" base mdl).headers
          = [("Authorization", "Bearer "), ("Content-Type", "application/json")] :=
  fun _ _ => ⟨rfl, rfl⟩

/-- C7 counterexample: on a 500 response with body `server error`,
`list_models` raises `API Error: 500` — the message carries the status only;
the raw body text appears nowhere in it. -/
theorem C7_counterexample :
    (exampleProvider.list_models net500).1
        = Except.error (PyError.apiError "API Error: 500")
    ∧ ¬ List.IsInfix "server error".data "API Error: 500".data
    ∧ PyError.apiError "API Error: 500"
        ≠ PyError.apiError "API Error: 500 - server error" :=
  ⟨rfl, by decide, by decide⟩

/-- C7 (amended): on HTTP 200 with body `{"data":[{"id": i1}, ...]}`,
`list_models` returns the ids in order (`["m1","m2"]` on the stub); on a
non-200 response it fails with the same generic error kind, whose message
carries the HTTP status only (`API Error: {status}`), without the body. -/
theorem C7_list_models :
    (∀ (p : PurdueGenAIProvider) (text : String) (ids : List Json),
        (p.list_models (fun _ => HttpOutcome.response 200 text
            (Except.ok (Json.obj
              [("data", Json.arr (ids.map (fun i => Json.obj [("id", i)])))])))).1
          = Except.ok ids)
    ∧ (∀ (p : PurdueGenAIProvider) (status : Nat) (text : String)
         (jb : Except String Json),
        status ≠ 200 →
        (p.list_models (fun _ => HttpOutcome.response status text jb)).1
          = Except.error (PyError.apiError ("API Error: " ++ toString status)))
    ∧ (exampleProvider.list_models modelsNet).1
        = Except.ok [Json.str "m1", Json.str "m2"] := by
  refine ⟨?_, ?_, rfl⟩
  · intro p text ids
    have h1 : (Json.obj
        [("data", Json.arr (ids.map (fun i => Json.obj [("id", i)])))]).getField "data"
        = Except.ok (Json.arr (ids.map (fun i => Json.obj [("id", i)]))) := rfl
    simp [PurdueGenAIProvider.list_models, h1, pyIter, collectIds_id_map ids]
  · intro p status text jb hs
    simp [PurdueGenAIProvider.list_models, hs]

/-- Witness for C7: at status 500 the error message is `API Error: 500`. -/
theorem C7_list_models_witness :
    (exampleProvider.list_models net500).1
      = Except.error (PyError.apiError ("API Error: " ++ toString (500 : Nat))) :=
  C7_list_models.2.1 exampleProvider 500 "server error" (Except.error "no json")
    (by decide)

/-- C8: the provider is immutable — `chat_completion` and `list_models`
return it unchanged for every argument and every remote behaviour. -/
theorem C8_provider_immutable :
    ∀ (p : PurdueGenAIProvider) (msgs : List Message) (mt : Nat) (t : ℚ)
      (net net' : HttpRequest → HttpOutcome),
      (p.chat_completion msgs mt t net).2 = p
      ∧ (p.list_models net').2 = p := by
  intro p msgs mt t net net'
  constructor
  · unfold PurdueGenAIProvider.chat_completion
    repeat' split
    all_goals rfl
  · unfold PurdueGenAIProvider.list_models
    repeat' split
    all_goals rfl

/-- C3: for every history and every successful provider response, `process`
appends exactly one user message then exactly one assistant message, in that
order, and returns exactly the content of the assistant message it just
appended — the most recently appended element of the history. -/
theorem C3_process_appends_and_returns :
    ∀ (a : OpenClawAgent) (u : String) (mt : Nat) (t : ℚ)
      (net : HttpRequest → HttpOutcome) (c : Json),
      tryCompletion (withUserMessage a u) mt t net = Except.ok c →
      (a.process u mt t net).2.conversation_history
          = a.conversation_history
              ++ [{ role := "user", content := Json.str u },
                  { role := "assistant", content := c }]
      ∧ (a.process u mt t net).1 = c
      ∧ (a.process u mt t net).2.conversation_history.getLast?
          = some { role := "assistant", content := c } := by
  intro a u mt t net c h
  rw [process_ok a u mt t net c h]
  refine ⟨rfl, rfl, ?_⟩
  dsimp only
  rw [List.getLast?_append_cons]
  rfl

/-- Witness for C3 at the hello stub. -/
theorem C3_witness :
    (demoAgent.process "hi" 10 (1/2) helloNet).2.conversation_history
        = demoAgent.conversation_history
            ++ [{ role := "user", content := Json.str "hi" },
                { role := "assistant", content := Json.str "hello" }]
    ∧ (demoAgent.process "hi" 10 (1/2) helloNet).1 = Json.str "hello"
    ∧ (demoAgent.process "hi" 10 (1/2) helloNet).2.conversation_history.getLast?
        = some { role := "assistant", content := Json.str "hello" } :=
  C3_process_appends_and_returns demoAgent "hi" 10 (1/2) helloNet
    (Json.str "hello") rfl

/-- C4: on every error of the provider call, `process` appends the user
message only (the history grows by exactly one element), appends no
assistant message, and returns the error-text string instead of raising. -/
theorem C4_process_on_provider_failure :
    ∀ (a : OpenClawAgent) (u : String) (mt : Nat) (t : ℚ)
      (net : HttpRequest → HttpOutcome) (e : PyError),
      (a.genai_provider.chat_completion
          (a.conversation_history ++ [{ role := "user", content := Json.str u }])
          mt t net).1 = Except.error e →
      (a.process u mt t net).2.conversation_history
          = a.conversation_history ++ [{ role := "user", content := Json.str u }]
      ∧ (a.process u mt t net).1 = Json.str ("Error: " ++ e.toMessage)
      ∧ (a.process u mt t net).2.conversation_history.length
          = a.conversation_history.length + 1 := by
  intro a u mt t net e h
  rw [process_err a u mt t net e (tryCompletion_chat_error a u mt t net e h)]
  refine ⟨rfl, rfl, ?_⟩
  dsimp only [withUserMessage]
  simp

/-- Witness for C4 at a transport failure. -/
theorem C4_witness :
    (demoAgent.process "hi" 10 (1/2) failNet).2.conversation_history
        = demoAgent.conversation_history
            ++ [{ role := "user", content := Json.str "hi" }]
    ∧ (demoAgent.process "hi" 10 (1/2) failNet).1
        = Json.str ("Error: " ++ (PyError.transportError "Connection refused").toMessage)
    ∧ (demoAgent.process "hi" 10 (1/2) failNet).2.conversation_history.length
        = demoAgent.conversation_history.length + 1 :=
  C4_process_on_provider_failure demoAgent "hi" 10 (1/2) failNet
    (PyError.transportError "Connection refused") rfl

/-- C6: `reset_conversation` replaces the history with either the empty
sequence or the single configured system message, and a successful `process`
right after it yields a history whose first non-system message is the user
message just sent — all prior turns are discarded. -/
theorem C6_reset_discards_history :
    ∀ (a : OpenClawAgent) (u : String) (mt : Nat) (t : ℚ)
      (net : HttpRequest → HttpOutcome) (c : Json),
      tryCompletion (withUserMessage a.reset_conversation u) mt t net
        = Except.ok c →
      (a.reset_conversation.conversation_history = []
        ∨ a.reset_conversation.conversation_history
            = [{ role := "system", content := Json.str a.system_prompt }])
      ∧ firstNonSystem
          ((a.reset_conversation.process u mt t net).2.conversation_history)
          = some { role := "user", content := Json.str u } := by
  intro a u mt t net c h
  have hp := process_ok a.reset_conversation u mt t net c h
  by_cases hs : a.system_prompt = ""
  · have hr : a.reset_conversation = { a with conversation_history := [] } := by
      unfold OpenClawAgent.reset_conversation
      rw [if_pos hs]
    refine ⟨Or.inl (by rw [hr]), ?_⟩
    rw [hp, hr]
    rfl
  · have hr : a.reset_conversation
        = { a with conversation_history :=
              [{ role := "system", content := Json.str a.system_prompt }] } := by
      unfold OpenClawAgent.reset_conversation
      rw [if_neg hs]
    refine ⟨Or.inr (by rw [hr]), ?_⟩
    rw [hp, hr]
    rfl

/-- Witness for C6 at the hello stub. -/
theorem C6_witness :
    (demoAgent.reset_conversation.conversation_history = []
      ∨ demoAgent.reset_conversation.conversation_history
          = [{ role := "system", content := Json.str demoAgent.system_prompt }])
    ∧ firstNonSystem
        ((demoAgent.reset_conversation.process "x" 10 (1/2) helloNet).2.conversation_history)
        = some { role := "user", content := Json.str "x" } :=
  C6_reset_discards_history demoAgent "x" 10 (1/2) helloNet (Json.str "hello") rfl

/-- C9: after `reset_conversation` on a constructed agent the history is the
single stored system message; an agent constructed with no system prompt has
an empty history but stores the default prompt, so its post-reset history
differs from its post-construction history; no operation changes the stored
prompt. -/
theorem C9_reset_seeds_default_prompt :
    ∀ (n : String) (p : PurdueGenAIProvider) (sp : Option String),
      ((OpenClawAgent.init n p sp).reset_conversation).conversation_history
          = [{ role := "system",
               content := Json.str (OpenClawAgent.init n p sp).system_prompt }]
      ∧ (OpenClawAgent.init n p none).conversation_history = []
      ∧ (OpenClawAgent.init n p none).system_prompt
          = "You are a helpful AI assistant."
      ∧ ((OpenClawAgent.init n p none).reset_conversation).conversation_history
          ≠ (OpenClawAgent.init n p none).conversation_history
      ∧ (∀ (a : OpenClawAgent),
          (a.reset_conversation).system_prompt = a.system_prompt)
      ∧ (∀ (a : OpenClawAgent) (u : String) (mt : Nat) (t : ℚ)
           (net : HttpRequest → HttpOutcome),
          ((a.process u mt t net).2).system_prompt = a.system_prompt) := by
  intro n p sp
  refine ⟨?_, rfl, rfl, ?_, ?_, ?_⟩
  · cases sp with
    | none => rfl
    | some s =>
        by_cases hs : s = ""
        · subst hs; rfl
        · simp [OpenClawAgent.init, OpenClawAgent.reset_conversation, hs]
  · intro h
    have h2 : ([⟨"system", Json.str "You are a helpful AI assistant."⟩] : List Message)
        = ([] : List Message) := h
    exact List.noConfusion h2
  · intro a
    unfold OpenClawAgent.reset_conversation
    split <;> rfl
  · intro a u mt t net
    simp only [OpenClawAgent.process]
    cases htc : tryCompletion (withUserMessage a u) mt t net <;> rfl

/-- C10 counterexample: a 200 payload whose first choice's content is the
JSON number 3 makes `process` return that number unchanged — not a string. -/
theorem C10_counterexample :
    (demoAgent.process "hi" 1000 (7/10) numNet).1 = Json.num 3
    ∧ ((demoAgent.process "hi" 1000 (7/10) numNet).1).isStr = false :=
  ⟨rfl, rfl⟩

/-- C10 (amended): `process` is total — for every input and every provider
behaviour it returns a value rather than propagating an exception: either
the extracted content of a successful exchange, returned unchanged (a string
exactly when the remote content was textual), or, on any failure, a string
beginning with `Error: `, with only the user message appended. -/
theorem C10_process_total :
    ∀ (a : OpenClawAgent) (u : String) (mt : Nat) (t : ℚ)
      (net : HttpRequest → HttpOutcome),
      (∃ c, tryCompletion (withUserMessage a u) mt t net = Except.ok c
            ∧ (a.process u mt t net).1 = c)
      ∨ (∃ m, (a.process u mt t net).1 = Json.str ("Error: " ++ m)
            ∧ (a.process u mt t net).2 = withUserMessage a u) := by
  intro a u mt t net
  cases htc : tryCompletion (withUserMessage a u) mt t net with
  | ok c =>
      left
      refine ⟨c, rfl, ?_⟩
      simp only [OpenClawAgent.process]
      rw [htc]
  | error e =>
      right
      refine ⟨e.toMessage, ?_, ?_⟩ <;> (simp only [OpenClawAgent.process]; rw [htc])
